import Mathlib

/-!
Shallow embedding of the campus portal web application (`src/app.py`, `src/models.py`):
a Flask application with two roles (admin, student), a public item catalog, and a
student resume-upload / admin-approval workflow.

Conventions of the embedding:
* the relational store is a `Store` of lists of records;
* the Flask session is a `Session` of the two role markers the code uses;
* each route handler is a Lean function from `Store × Session` (plus the request
  data) to a `HandlerResult` carrying the response, the flash messages emitted,
  the new session and the new store;
* a Python unhandled exception (for example `None.strip()`) is the `Resp.serverError`
  response with store and session unchanged, matching the fact that the handlers
  raise before any database commit;
* `datetime.utcnow()` is an explicit `now : Nat` parameter;
* machine-level concerns (template rendering, the SQL engine, the filesystem)
  are modelled by their visible contract only.
-/

namespace CampusPortal

/-- An administrator account (the `Admin` model: id, unique username, password hash). -/
structure Admin where
  id : Nat
  username : String
  password_hash : String
deriving Repr, DecidableEq

/-- A student account (the `Student` model: id, unique username, unique email, password hash). -/
structure Student where
  id : Nat
  username : String
  email : String
  password_hash : String
deriving Repr, DecidableEq

/-- A catalog item (the `Item` model in `models.py`: id, title, optional description,
creation timestamp defaulted to `datetime.utcnow`). -/
structure Item where
  id : Nat
  title : String
  description : Option String
  created_at : Nat
deriving Repr, DecidableEq

/-- A student application (the `Application` model: id, owning student, stored resume
filename, status string, creation timestamp, nullable approval timestamp). -/
structure Application where
  id : Nat
  student_id : Nat
  resume_filename : String
  status : String
  created_at : Nat
  approved_at : Option Nat
deriving Repr, DecidableEq

/-- The relational store plus the upload directory of the server filesystem. -/
structure Store where
  admins : List Admin
  students : List Student
  items : List Item
  applications : List Application
  files : List String
deriving Repr, DecidableEq

/-- The Flask session, restricted to the two keys the application uses
(`admin_id`, `student_id`). `none` models an absent key. -/
structure Session where
  admin_id : Option Nat
  student_id : Option Nat
deriving Repr, DecidableEq

/-- The render contexts the handlers pass to `render_template`. -/
inductive Tmpl where
  | adminRegister
  | adminLogin
  | studentRegister
  | studentLogin
  | uploadResume (student : Option Student)
  | studentDashboard (student : Student) (applications : List Application)
  | adminApplications (applications : List Application)
  | itemList (items : List Item)
  | itemDetail (item : Item)
  | createPage (title : String) (description : Option String)
  | editPage (item : Item) (title : String) (description : Option String)
deriving Repr, DecidableEq

/-- A handler's HTTP outcome: a rendered template, a redirect to a named endpoint,
a 404 page, or a 500 page from an unhandled Python exception. -/
inductive Resp where
  | render (t : Tmpl)
  | redirect (endpoint : String)
  | notFound
  | serverError
deriving Repr, DecidableEq

/-- A flash message: text and category, as passed to Flask's `flash`. -/
abbrev Flash := String × String

/-- The overall effect of one request: response, flashes emitted, new session, new store. -/
structure HandlerResult where
  resp : Resp
  flashes : List Flash
  session : Session
  store : Store
deriving Repr, DecidableEq

/-- A route handler after its request data has been bound. -/
abbrev Handler := Store → Session → HandlerResult

/-- An HTML form, as the multidict `request.form`: first binding of a key wins. -/
abbrev Form := List (String × String)

/-- `request.form.get(k)`: `some` of the first value bound to `k`, else `none` (Python `None`). -/
def formGet (form : Form) (k : String) : Option String :=
  (form.find? (fun p => p.fst == k)).map Prod.snd

/-- Python `str.strip()`: drop leading and trailing whitespace. Implemented by
structural recursion over the character list so that concrete instances reduce. -/
def pyStrip (s : String) : String :=
  String.mk (((s.toList.dropWhile Char.isWhitespace).reverse.dropWhile
    Char.isWhitespace).reverse)

/-- Python `str.lower()` on an ASCII letter. -/
def pyLowerChar (c : Char) : Char :=
  if 65 ≤ c.toNat ∧ c.toNat ≤ 90 then Char.ofNat (c.toNat + 32) else c

/-- Python `str.lower()`. -/
def pyLower (s : String) : String := String.mk (s.toList.map pyLowerChar)

/-- Python `filename.rsplit(".", 1)[1]`: the suffix after the last dot. -/
def extAfterLastDot (s : String) : String :=
  String.mk ((s.toList.reverse.takeWhile (fun c => c ≠ '.')).reverse)

/-- Python `str.split()`: split on whitespace runs, dropping empty words; `acc` is the
current word reversed. -/
def pySplitWs : List Char → List Char → List (List Char)
  | [], acc => if acc = [] then [] else [ acc.reverse ]
  | c :: cs, acc =>
    if c.isWhitespace then
      if acc = [] then pySplitWs cs [] else acc.reverse :: pySplitWs cs []
    else pySplitWs cs (c :: acc)

/-- Python `"_".join(words)`. -/
def joinUnderscore : List (List Char) → List Char
  | [] => []
  | [ w ] => w
  | w :: ws => w ++ '_' :: joinUnderscore ws

/-- `request.form.get(k).strip()`: `none` when the key is absent, in which case the
Python code raises `AttributeError` (`None` has no `strip`). -/
def getStrip (form : Form) (k : String) : Option String :=
  (formGet form k).map pyStrip

/-- The result of an unhandled Python exception escaping a handler: Flask returns a
500 response; no commit has happened, so store and session are unchanged. -/
def serverError (st : Store) (sess : Session) : HandlerResult :=
  { resp := .serverError, flashes := [], session := sess, store := st }

/-- Python truthiness of `session.get(key)` for an integer-or-absent key:
falsy when absent or zero. -/
def truthyMarker : Option Nat → Bool
  | none => false
  | some n => n != 0

/-- The `admin_login_required` decorator: if `session.get("admin_id")` is falsy,
flash an error and redirect to the admin login page, short-circuiting the handler. -/
def admin_login_required (f : Handler) : Handler := fun st sess =>
  if truthyMarker sess.admin_id then f st sess
  else
    { resp := .redirect "admin_login",
      flashes := [ ("Please log in as admin.", "error") ],
      session := sess, store := st }

/-- The `student_login_required` decorator, the student-role twin of the admin guard. -/
def student_login_required (f : Handler) : Handler := fun st sess =>
  if truthyMarker sess.student_id then f st sess
  else
    { resp := .redirect "student_login",
      flashes := [ ("Please log in as a student.", "error") ],
      session := sess, store := st }

/-- A fresh autoincrement primary key: one more than the largest key in use. -/
def freshId (ids : List Nat) : Nat := ids.foldr max 0 + 1

/-- Modelled from the spec: `set_password` of the `Admin` and `Student` model classes,
which `app.py` imports from `models.py` but which are absent from the source tree
(`models.py` only defines `Item`). The spec says passwords are stored as a one-way
hash with a verification function; we model the external hash as a tagging function. -/
def generate_password_hash (p : String) : String := "pbkdf2-sha256$" ++ p

/-- Modelled from the spec: `check_password` verifies a password against the stored hash. -/
def check_password_hash (h : String) (p : String) : Bool := h == generate_password_hash p

/-- Modelled from the spec: the `Application` model class is referenced by `app.py` but
absent from the source tree. Per the spec's data model, `status` defaults to "Pending",
`created_at` is stamped at creation, and `approved_at` is nullable (initially null). -/
def new_application (id student_id : Nat) (resume_filename : String) (now : Nat) : Application :=
  { id := id, student_id := student_id, resume_filename := resume_filename,
    status := "Pending", created_at := now, approved_at := none }

/-- POST branch of `admin_register`: strip both fields (raising when absent), reject blank
fields or a duplicate username with a flash and a re-render, otherwise persist the new
admin with a hashed password and redirect to the admin login page. -/
def admin_register_post (form : Form) : Handler := fun st sess =>
  match getStrip form "username", getStrip form "password" with
  | some username, some password =>
    if username = "" ∨ password = "" then
      { resp := .render .adminRegister,
        flashes := [ ("Username and password required.", "error") ],
        session := sess, store := st }
    else if (st.admins.find? (fun a => a.username == username)).isSome then
      { resp := .render .adminRegister,
        flashes := [ ("Username already taken.", "error") ],
        session := sess, store := st }
    else
      let admin : Admin :=
        { id := freshId (st.admins.map Admin.id), username := username,
          password_hash := generate_password_hash password }
      { resp := .redirect "admin_login",
        flashes := [ ("Admin registered successfully.", "success") ],
        session := sess, store := { st with admins := st.admins ++ [ admin ] } }
  | _, _ => serverError st sess

/-- POST branch of `admin_login`: strip both fields (raising when absent), look the admin
up by username, flash a generic error on a miss or a failed password check, otherwise
clear the whole session, store `admin_id` and redirect to the index. -/
def admin_login_post (form : Form) : Handler := fun st sess =>
  match getStrip form "username", getStrip form "password" with
  | some username, some password =>
    let invalid : HandlerResult :=
      { resp := .render .adminLogin,
        flashes := [ ("Invalid username or password.", "error") ],
        session := sess, store := st }
    match st.admins.find? (fun a => a.username == username) with
    | none => invalid
    | some admin =>
      if check_password_hash admin.password_hash password then
        { resp := .redirect "index",
          flashes := [ ("Logged in successfully.", "success") ],
          session := { admin_id := some admin.id, student_id := none }, store := st }
      else invalid
  | _, _ => serverError st sess

/-- The `/admin/logout` route (named `logout` in the source). It carries no login guard:
it pops `admin_id` with a default, flashes, and redirects to the index, for any session. -/
def logout : Handler := fun st sess =>
  { resp := .redirect "index",
    flashes := [ ("Logged out.", "info") ],
    session := { sess with admin_id := none }, store := st }

/-- POST branch of `student_register`: strip the three fields (raising when absent),
reject blank fields or a duplicate username-or-email with a flash and a re-render,
otherwise persist the new student and redirect to the student login page. -/
def student_register_post (form : Form) : Handler := fun st sess =>
  match getStrip form "username", getStrip form "email", getStrip form "password" with
  | some username, some email, some password =>
    if username = "" ∨ email = "" ∨ password = "" then
      { resp := .render .studentRegister,
        flashes := [ ("All fields are required.", "error") ],
        session := sess, store := st }
    else if (st.students.find? (fun s => s.username == username)).isSome
        || (st.students.find? (fun s => s.email == email)).isSome then
      { resp := .render .studentRegister,
        flashes := [ ("Username or email already taken.", "error") ],
        session := sess, store := st }
    else
      let student : Student :=
        { id := freshId (st.students.map Student.id), username := username,
          email := email, password_hash := generate_password_hash password }
      { resp := .redirect "student_login",
        flashes := [ ("Registered successfully. Please login.", "success") ],
        session := sess, store := { st with students := st.students ++ [ student ] } }
  | _, _, _ => serverError st sess

/-- POST branch of `student_login`: analogous to the admin login, storing `student_id`
into a cleared session and redirecting to the student dashboard. -/
def student_login_post (form : Form) : Handler := fun st sess =>
  match getStrip form "username", getStrip form "password" with
  | some username, some password =>
    let invalid : HandlerResult :=
      { resp := .render .studentLogin,
        flashes := [ ("Invalid username or password.", "error") ],
        session := sess, store := st }
    match st.students.find? (fun s => s.username == username) with
    | none => invalid
    | some student =>
      if check_password_hash student.password_hash password then
        { resp := .redirect "student_dashboard",
          flashes := [ ("Logged in successfully.", "success") ],
          session := { admin_id := none, student_id := some student.id }, store := st }
      else invalid
  | _, _ => serverError st sess

/-- The `/student/logout` route. Like the admin logout it carries no login guard:
it pops `student_id` with a default, flashes, and redirects to the index. -/
def student_logout : Handler := fun st sess =>
  { resp := .redirect "index",
    flashes := [ ("Logged out.", "info") ],
    session := { sess with student_id := none }, store := st }

/-- The allowed resume extensions. -/
def ALLOWED_EXTENSIONS : List String := [ "pdf", "doc", "docx" ]

/-- `allowed_file`: the filename has a dot and its part after the last dot, lowercased,
is one of the allowed extensions. -/
def allowed_file (filename : String) : Bool :=
  filename.toList.contains '.'
    && ALLOWED_EXTENSIONS.contains (pyLower (extAfterLastDot filename))

/-- The fixed server-side upload directory. -/
def UPLOAD_FOLDER : String := "static/uploads"

/-- Model of the external collaborator `werkzeug.utils.secure_filename`: whitespace runs
become single underscores, every character outside ASCII alphanumerics, underscore, dot
and dash is dropped, and leading and trailing dots and underscores are stripped. -/
def secure_filename (s : String) : String :=
  let joined := joinUnderscore (pySplitWs s.toList [])
  let kept := joined.filter (fun c => c.isAlphanum || c == '_' || c == '.' || c == '-')
  String.mk (((kept.dropWhile (fun c => c == '.' || c == '_')).reverse.dropWhile
    (fun c => c == '.' || c == '_')).reverse)

/-- An uploaded file as Flask's `FileStorage`: we model the filename it carries. -/
structure FileStorage where
  filename : String
deriving Repr, DecidableEq

/-- POST branch of `upload_resume` (the body inside the student guard). Mirrors the
source order: fetch the current student, reject a missing file part or an empty
filename with a flash and a redirect back to the form, accept an allowed extension by
saving the sanitized file and adding an Application, and otherwise fall through to a
re-render of the form with no flash. -/
def upload_resume_post (file? : Option FileStorage) (now : Nat) : Handler := fun st sess =>
  match sess.student_id with
  | none => serverError st sess
  | some sid =>
    let student? := st.students.find? (fun s => s.id == sid)
    match file? with
    | none =>
      { resp := .redirect "upload_resume",
        flashes := [ ("No file part.", "error") ],
        session := sess, store := st }
    | some file =>
      if file.filename = "" then
        { resp := .redirect "upload_resume",
          flashes := [ ("No selected file.", "error") ],
          session := sess, store := st }
      else if allowed_file file.filename then
        match student? with
        | none => serverError st sess
        | some student =>
          let filename := secure_filename file.filename
          let path := UPLOAD_FOLDER ++ "/" ++ filename
          let app_record :=
            new_application (freshId (st.applications.map Application.id))
              student.id filename now
          { resp := .redirect "student_dashboard",
            flashes := [ ("Resume uploaded successfully.", "success") ],
            session := sess,
            store := { st with files := st.files ++ [ path ],
                               applications := st.applications ++ [ app_record ] } }
      else
        { resp := .render (.uploadResume student?), flashes := [], session := sess, store := st }

/-- GET branch of `upload_resume` (inside the student guard): render the form with the
current student. -/
def upload_resume_get : Handler := fun st sess =>
  match sess.student_id with
  | none => serverError st sess
  | some sid =>
    { resp := .render (.uploadResume (st.students.find? (fun s => s.id == sid))),
      flashes := [], session := sess, store := st }

/-- `student_dashboard` (inside the student guard): fetch the current student and their
applications; `student.applications` raises when the record is missing. -/
def student_dashboard : Handler := fun st sess =>
  match sess.student_id with
  | none => serverError st sess
  | some sid =>
    match st.students.find? (fun s => s.id == sid) with
    | none => serverError st sess
    | some student =>
      { resp := .render (.studentDashboard student
          (st.applications.filter (fun a => a.student_id == student.id))),
        flashes := [], session := sess, store := st }

/-- The descending creation-time order of `order_by(Application.created_at.desc())`. -/
def appDescRel (a b : Application) : Prop := b.created_at ≤ a.created_at

instance : DecidableRel appDescRel := fun a b => Nat.decLe b.created_at a.created_at

/-- `admin_view_applications` (inside the admin guard): list all applications newest
first. The SQL ordering is an external collaborator, modelled as a sort by `appDescRel`. -/
def admin_view_applications : Handler := fun st sess =>
  { resp := .render (.adminApplications (List.insertionSort appDescRel st.applications)),
    flashes := [], session := sess, store := st }

/-- The update `approve_application` performs on the fetched row: status to "Approved",
approval timestamp to the current time. Applied by id. -/
def approveUpd (app_id : Nat) (now : Nat) (a : Application) : Application :=
  if a.id == app_id then { a with status := "Approved", approved_at := some now } else a

/-- `approve_application` (inside the admin guard): `get_or_404` on the id, then set the
status and approval timestamp and commit, flashing and redirecting to the list. -/
def approve_application (app_id : Nat) (now : Nat) : Handler := fun st sess =>
  match st.applications.find? (fun a => a.id == app_id) with
  | none => { resp := .notFound, flashes := [], session := sess, store := st }
  | some _ =>
    { resp := .redirect "admin_view_applications",
      flashes := [ ("Application approved.", "success") ],
      session := sess,
      store := { st with applications := st.applications.map (approveUpd app_id now) } }

/-- The fixed page size of the index listing. -/
def PER_PAGE : Nat := 6

/-- The descending creation-time order of `order_by(Item.created_at.desc())`. -/
def itemDescRel (a b : Item) : Prop := b.created_at ≤ a.created_at

instance : DecidableRel itemDescRel := fun a b => Nat.decLe b.created_at a.created_at

instance : IsTotal Item itemDescRel :=
  ⟨fun a b => Nat.le_total b.created_at a.created_at⟩

instance : IsTrans Item itemDescRel :=
  ⟨fun _ _ _ hab hbc => Nat.le_trans hbc hab⟩

/-- The `Item.query.order_by(Item.created_at.desc())` result; the SQL ordering is an
external collaborator, modelled as a sort by `itemDescRel`. -/
def order_items_desc (items : List Item) : List Item :=
  List.insertionSort itemDescRel items

/-- Model of the external collaborator `paginate(page=page, per_page=6, error_out=False)`
of Flask-SQLAlchemy: a page below 1 is clamped to 1, and the page's items are the window
of size `per_page` at offset `(page-1)*per_page`, empty when the offset is past the end. -/
def paginate_items (items : List Item) (page : Int) (per_page : Nat) : List Item :=
  let p := if page < 1 then 1 else page
  (items.drop ((p.toNat - 1) * per_page)).take per_page

/-- The `index` route: read `page` from the query string (`none` models an absent or
non-integer parameter, for which Flask's typed `args.get` returns the default 1),
and render the requested window of the descending listing. -/
def index (page? : Option Int) : Handler := fun st sess =>
  let page := page?.getD 1
  { resp := .render (.itemList (paginate_items (order_items_desc st.items) page PER_PAGE)),
    flashes := [], session := sess, store := st }

/-- The `detail` route: `get_or_404` on the item id, rendering the detail page. -/
def detail (item_id : Nat) : Handler := fun st sess =>
  match st.items.find? (fun i => i.id == item_id) with
  | none => { resp := .notFound, flashes := [], session := sess, store := st }
  | some item =>
    { resp := .render (.itemDetail item), flashes := [], session := sess, store := st }

/-- `(request.form.get("title") or "").strip()` of the create and edit handlers. -/
def strippedTitle (form : Form) : String :=
  pyStrip ((formGet form "title").getD "")

/-- `(request.form.get("description") or "").strip() or None` of the create and edit
handlers: a blank (or absent) description becomes Python `None`. -/
def strippedDescription (form : Form) : Option String :=
  let d := pyStrip ((formGet form "description").getD "")
  if d = "" then none else some d

/-- POST branch of `create` (inside the admin guard): reject a blank title by
re-rendering the form with the stripped values and an error flash, otherwise persist
the item and redirect to the index. -/
def create_post (form : Form) (now : Nat) : Handler := fun st sess =>
  let title := strippedTitle form
  let description := strippedDescription form
  if title = "" then
    { resp := .render (.createPage title description),
      flashes := [ ("Title is required.", "error") ],
      session := sess, store := st }
  else
    let item : Item :=
      { id := freshId (st.items.map Item.id), title := title,
        description := description, created_at := now }
    { resp := .redirect "index",
      flashes := [ ("Item created successfully.", "success") ],
      session := sess, store := { st with items := st.items ++ [ item ] } }

/-- POST branch of `edit` (inside the admin guard): `get_or_404` on the item, the same
blank-title validation as create (re-rendering with the stripped values), otherwise an
in-place update and a redirect to the item's detail view. -/
def edit_post (item_id : Nat) (form : Form) : Handler := fun st sess =>
  match st.items.find? (fun i => i.id == item_id) with
  | none => { resp := .notFound, flashes := [], session := sess, store := st }
  | some item =>
    let title := strippedTitle form
    let description := strippedDescription form
    if title = "" then
      { resp := .render (.editPage item title description),
        flashes := [ ("Title is required.", "error") ],
        session := sess, store := st }
    else
      { resp := .redirect "detail",
        flashes := [ ("Item updated.", "success") ],
        session := sess,
        store := { st with items := st.items.map (fun i =>
          if i.id == item_id then { i with title := title, description := description } else i) } }

/-- GET branch of `edit` (inside the admin guard): `get_or_404`, then render the form
pre-filled with the item's title and its description-or-empty-string. -/
def edit_get (item_id : Nat) : Handler := fun st sess =>
  match st.items.find? (fun i => i.id == item_id) with
  | none => { resp := .notFound, flashes := [], session := sess, store := st }
  | some item =>
    { resp := .render (.editPage item item.title (some (item.description.getD ""))),
      flashes := [], session := sess, store := st }

/-- The `delete` route (inside the admin guard): `get_or_404`, then delete and redirect. -/
def delete (item_id : Nat) : Handler := fun st sess =>
  match st.items.find? (fun i => i.id == item_id) with
  | none => { resp := .notFound, flashes := [], session := sess, store := st }
  | some _ =>
    { resp := .redirect "index",
      flashes := [ ("Item deleted.", "info") ],
      session := sess, store := { st with items := st.items.filter (fun i => i.id != item_id) } }

/-- One HTTP request to the application, with its data already parsed. -/
inductive Request where
  | adminRegisterGet
  | adminRegisterPost (form : Form)
  | adminLoginGet
  | adminLoginPost (form : Form)
  | adminLogout
  | studentRegisterGet
  | studentRegisterPost (form : Form)
  | studentLoginGet
  | studentLoginPost (form : Form)
  | studentLogout
  | uploadGet
  | uploadPost (file : Option FileStorage)
  | dashboardGet
  | applicationsGet
  | approvePost (app_id : Nat)
  | indexGet (page : Option Int)
  | detailGet (item_id : Nat)
  | createGet
  | createPost (form : Form)
  | editGet (item_id : Nat)
  | editPost (item_id : Nat) (form : Form)
  | deletePost (item_id : Nat)

/-- The application's dispatch: each route wrapped in exactly the guards the source
applies to it. `now` is the request's `datetime.utcnow()`. -/
def handle (req : Request) (now : Nat) : Handler := fun st sess =>
  match req with
  | .adminRegisterGet =>
    { resp := .render .adminRegister, flashes := [], session := sess, store := st }
  | .adminRegisterPost form => admin_register_post form st sess
  | .adminLoginGet =>
    { resp := .render .adminLogin, flashes := [], session := sess, store := st }
  | .adminLoginPost form => admin_login_post form st sess
  | .adminLogout => logout st sess
  | .studentRegisterGet =>
    { resp := .render .studentRegister, flashes := [], session := sess, store := st }
  | .studentRegisterPost form => student_register_post form st sess
  | .studentLoginGet =>
    { resp := .render .studentLogin, flashes := [], session := sess, store := st }
  | .studentLoginPost form => student_login_post form st sess
  | .studentLogout => student_logout st sess
  | .uploadGet => student_login_required upload_resume_get st sess
  | .uploadPost file => student_login_required (upload_resume_post file now) st sess
  | .dashboardGet => student_login_required student_dashboard st sess
  | .applicationsGet => admin_login_required admin_view_applications st sess
  | .approvePost app_id => admin_login_required (approve_application app_id now) st sess
  | .indexGet page? => index page? st sess
  | .detailGet item_id => detail item_id st sess
  | .createGet =>
    admin_login_required
      (fun st1 sess1 =>
        { resp := .render (.createPage "" none), flashes := [], session := sess1, store := st1 })
      st sess
  | .createPost form => admin_login_required (create_post form now) st sess
  | .editGet item_id => admin_login_required (edit_get item_id) st sess
  | .editPost item_id form => admin_login_required (edit_post item_id form) st sess
  | .deletePost item_id => admin_login_required (delete item_id) st sess

/-- The store of a freshly created database. -/
def emptyStore : Store :=
  { admins := [], students := [], items := [], applications := [], files := [] }

/-- The session of a fresh visitor. -/
def emptySession : Session := { admin_id := none, student_id := none }

/-- States reachable from a fresh database and session by any sequence of requests. -/
inductive Reach : Store → Session → Prop where
  | init : Reach emptyStore emptySession
  | step : ∀ {st sess} (req : Request) (now : Nat), Reach st sess →
      Reach (handle req now st sess).store (handle req now st sess).session

/-- The Application invariant of the spec's data model: each application is "Pending"
with a null approval timestamp or "Approved" with a non-null one. -/
def AppInv (st : Store) : Prop :=
  ∀ a ∈ st.applications,
    (a.status = "Pending" ∧ a.approved_at = none) ∨
    (a.status = "Approved" ∧ a.approved_at.isSome = true)

/-- At most one role marker is present in the session. -/
def oneRole (sess : Session) : Prop :=
  sess.admin_id = none ∨ sess.student_id = none

/-- The requests whose route the dispatch wraps in `admin_login_required`. -/
def guardedAdmin : Request → Prop
  | .applicationsGet => True
  | .approvePost _ => True
  | .createGet => True
  | .createPost _ => True
  | .editGet _ => True
  | .editPost _ _ => True
  | .deletePost _ => True
  | _ => False

/-- The requests whose route the dispatch wraps in `student_login_required`. -/
def guardedStudent : Request → Prop
  | .uploadGet => True
  | .uploadPost _ => True
  | .dashboardGet => True
  | _ => False

/-- A concrete admin used to instantiate theorems. -/
def adminW : Admin :=
  { id := 1, username := "alice", password_hash := generate_password_hash "pw1" }

/-- A concrete student used to instantiate theorems. -/
def studentW : Student :=
  { id := 1, username := "bob", email := "bob@x.com",
    password_hash := generate_password_hash "pw2" }

/-- A concrete pending application used to instantiate theorems. -/
def appW : Application := new_application 1 1 "resume.pdf" 0

/-- A concrete item used to instantiate theorems. -/
def itemW : Item := { id := 1, title := "Widget", description := none, created_at := 0 }

/-- A concrete store used to instantiate theorems. -/
def storeW : Store :=
  { admins := [ adminW ], students := [ studentW ], items := [ itemW ],
    applications := [ appW ], files := [] }

/-- A session logged in as the concrete admin. -/
def sessAdmin : Session := { admin_id := some 1, student_id := none }

/-- A session logged in as the concrete student. -/
def sessStudent : Session := { admin_id := none, student_id := some 1 }

theorem admin_register_post_apps (form : Form) (st : Store) (sess : Session) :
    (admin_register_post form st sess).store.applications = st.applications := by
  unfold admin_register_post serverError
  repeat' split
  all_goals rfl

theorem admin_register_post_session (form : Form) (st : Store) (sess : Session) :
    (admin_register_post form st sess).session = sess := by
  unfold admin_register_post serverError
  repeat' split
  all_goals rfl

theorem admin_login_post_apps (form : Form) (st : Store) (sess : Session) :
    (admin_login_post form st sess).store.applications = st.applications := by
  unfold admin_login_post serverError
  repeat' split
  all_goals rfl

theorem admin_login_post_session (form : Form) (st : Store) (sess : Session) :
    (admin_login_post form st sess).session = sess ∨
    ∃ aid, (admin_login_post form st sess).session =
      { admin_id := some aid, student_id := none } := by
  unfold admin_login_post serverError
  repeat' split
  all_goals first
    | exact Or.inl rfl
    | exact Or.inr ⟨_, rfl⟩

theorem student_register_post_apps (form : Form) (st : Store) (sess : Session) :
    (student_register_post form st sess).store.applications = st.applications := by
  unfold student_register_post serverError
  repeat' split
  all_goals rfl

theorem student_register_post_session (form : Form) (st : Store) (sess : Session) :
    (student_register_post form st sess).session = sess := by
  unfold student_register_post serverError
  repeat' split
  all_goals rfl

theorem student_login_post_apps (form : Form) (st : Store) (sess : Session) :
    (student_login_post form st sess).store.applications = st.applications := by
  unfold student_login_post serverError
  repeat' split
  all_goals rfl

theorem student_login_post_session (form : Form) (st : Store) (sess : Session) :
    (student_login_post form st sess).session = sess ∨
    ∃ sid, (student_login_post form st sess).session =
      { admin_id := none, student_id := some sid } := by
  unfold student_login_post serverError
  repeat' split
  all_goals first
    | exact Or.inl rfl
    | exact Or.inr ⟨_, rfl⟩

theorem upload_resume_post_apps (f : Option FileStorage) (now : Nat)
    (st : Store) (sess : Session) :
    (upload_resume_post f now st sess).store.applications = st.applications ∨
    ∃ n, (upload_resume_post f now st sess).store.applications = st.applications ++ [ n ] ∧
      n.status = "Pending" ∧ n.approved_at = none := by
  unfold upload_resume_post serverError
  dsimp only
  repeat' split
  all_goals first
    | exact Or.inl rfl
    | exact Or.inr ⟨_, rfl, rfl, rfl⟩

theorem upload_resume_post_session (f : Option FileStorage) (now : Nat)
    (st : Store) (sess : Session) :
    (upload_resume_post f now st sess).session = sess := by
  unfold upload_resume_post serverError
  dsimp only
  repeat' split
  all_goals rfl

theorem upload_resume_get_state (st : Store) (sess : Session) :
    (upload_resume_get st sess).store = st ∧ (upload_resume_get st sess).session = sess := by
  unfold upload_resume_get serverError
  repeat' split
  all_goals exact ⟨rfl, rfl⟩

theorem student_dashboard_state (st : Store) (sess : Session) :
    (student_dashboard st sess).store = st ∧ (student_dashboard st sess).session = sess := by
  unfold student_dashboard serverError
  repeat' split
  all_goals exact ⟨rfl, rfl⟩

theorem approve_application_apps (app_id : Nat) (now : Nat) (st : Store) (sess : Session) :
    (approve_application app_id now st sess).store.applications = st.applications ∨
    (approve_application app_id now st sess).store.applications =
      st.applications.map (approveUpd app_id now) := by
  unfold approve_application
  split
  · exact Or.inl rfl
  · exact Or.inr rfl

theorem approve_application_session (app_id : Nat) (now : Nat) (st : Store) (sess : Session) :
    (approve_application app_id now st sess).session = sess := by
  unfold approve_application
  split
  all_goals rfl

theorem detail_state (item_id : Nat) (st : Store) (sess : Session) :
    (detail item_id st sess).store = st ∧ (detail item_id st sess).session = sess := by
  unfold detail
  split
  all_goals exact ⟨rfl, rfl⟩

theorem create_post_apps (form : Form) (now : Nat) (st : Store) (sess : Session) :
    (create_post form now st sess).store.applications = st.applications ∧
    (create_post form now st sess).session = sess := by
  unfold create_post
  dsimp only
  split
  all_goals exact ⟨rfl, rfl⟩

theorem edit_post_apps (item_id : Nat) (form : Form) (st : Store) (sess : Session) :
    (edit_post item_id form st sess).store.applications = st.applications ∧
    (edit_post item_id form st sess).session = sess := by
  unfold edit_post
  dsimp only
  repeat' split
  all_goals exact ⟨rfl, rfl⟩

theorem edit_get_state (item_id : Nat) (st : Store) (sess : Session) :
    (edit_get item_id st sess).store = st ∧ (edit_get item_id st sess).session = sess := by
  unfold edit_get
  split
  all_goals exact ⟨rfl, rfl⟩

theorem delete_apps (item_id : Nat) (st : Store) (sess : Session) :
    (delete item_id st sess).store.applications = st.applications ∧
    (delete item_id st sess).session = sess := by
  unfold delete
  split
  all_goals exact ⟨rfl, rfl⟩

theorem handle_apps_cases (req : Request) (now : Nat) (st : Store) (sess : Session) :
    (handle req now st sess).store.applications = st.applications ∨
    (∃ n, (handle req now st sess).store.applications = st.applications ++ [ n ] ∧
      n.status = "Pending" ∧ n.approved_at = none) ∨
    (∃ app_id, (handle req now st sess).store.applications
      = st.applications.map (approveUpd app_id now)) := by
  cases req with
  | adminRegisterGet => exact Or.inl rfl
  | adminRegisterPost form => exact Or.inl (admin_register_post_apps form st sess)
  | adminLoginGet => exact Or.inl rfl
  | adminLoginPost form => exact Or.inl (admin_login_post_apps form st sess)
  | adminLogout => exact Or.inl rfl
  | studentRegisterGet => exact Or.inl rfl
  | studentRegisterPost form => exact Or.inl (student_register_post_apps form st sess)
  | studentLoginGet => exact Or.inl rfl
  | studentLoginPost form => exact Or.inl (student_login_post_apps form st sess)
  | studentLogout => exact Or.inl rfl
  | uploadGet =>
    simp only [handle, student_login_required]
    split
    · exact Or.inl (congrArg Store.applications (upload_resume_get_state st sess).1)
    · exact Or.inl rfl
  | uploadPost f =>
    simp only [handle, student_login_required]
    split
    · rcases upload_resume_post_apps f now st sess with h | h
      · exact Or.inl h
      · exact Or.inr (Or.inl h)
    · exact Or.inl rfl
  | dashboardGet =>
    simp only [handle, student_login_required]
    split
    · exact Or.inl (congrArg Store.applications (student_dashboard_state st sess).1)
    · exact Or.inl rfl
  | applicationsGet =>
    simp only [handle, admin_login_required]
    split
    · exact Or.inl rfl
    · exact Or.inl rfl
  | approvePost app_id =>
    simp only [handle, admin_login_required]
    split
    · rcases approve_application_apps app_id now st sess with h | h
      · exact Or.inl h
      · exact Or.inr (Or.inr ⟨app_id, h⟩)
    · exact Or.inl rfl
  | indexGet page? => exact Or.inl rfl
  | detailGet item_id =>
    exact Or.inl (congrArg Store.applications (detail_state item_id st sess).1)
  | createGet =>
    simp only [handle, admin_login_required]
    split
    · exact Or.inl rfl
    · exact Or.inl rfl
  | createPost form =>
    simp only [handle, admin_login_required]
    split
    · exact Or.inl (create_post_apps form now st sess).1
    · exact Or.inl rfl
  | editGet item_id =>
    simp only [handle, admin_login_required]
    split
    · exact Or.inl (congrArg Store.applications (edit_get_state item_id st sess).1)
    · exact Or.inl rfl
  | editPost item_id form =>
    simp only [handle, admin_login_required]
    split
    · exact Or.inl (edit_post_apps item_id form st sess).1
    · exact Or.inl rfl
  | deletePost item_id =>
    simp only [handle, admin_login_required]
    split
    · exact Or.inl (delete_apps item_id st sess).1
    · exact Or.inl rfl

theorem handle_session_oneRole (req : Request) (now : Nat) (st : Store) (sess : Session) :
    (handle req now st sess).session = sess ∨ oneRole (handle req now st sess).session := by
  cases req with
  | adminRegisterGet => exact Or.inl rfl
  | adminRegisterPost form => exact Or.inl (admin_register_post_session form st sess)
  | adminLoginGet => exact Or.inl rfl
  | adminLoginPost form =>
    simp only [handle]
    rcases admin_login_post_session form st sess with h | ⟨aid, h⟩
    · exact Or.inl h
    · rw [h]
      exact Or.inr (Or.inr rfl)
  | adminLogout => exact Or.inr (Or.inl rfl)
  | studentRegisterGet => exact Or.inl rfl
  | studentRegisterPost form => exact Or.inl (student_register_post_session form st sess)
  | studentLoginGet => exact Or.inl rfl
  | studentLoginPost form =>
    simp only [handle]
    rcases student_login_post_session form st sess with h | ⟨sid, h⟩
    · exact Or.inl h
    · rw [h]
      exact Or.inr (Or.inl rfl)
  | studentLogout => exact Or.inr (Or.inr rfl)
  | uploadGet =>
    simp only [handle, student_login_required]
    split
    · exact Or.inl (upload_resume_get_state st sess).2
    · exact Or.inl rfl
  | uploadPost f =>
    simp only [handle, student_login_required]
    split
    · exact Or.inl (upload_resume_post_session f now st sess)
    · exact Or.inl rfl
  | dashboardGet =>
    simp only [handle, student_login_required]
    split
    · exact Or.inl (student_dashboard_state st sess).2
    · exact Or.inl rfl
  | applicationsGet =>
    simp only [handle, admin_login_required]
    split
    · exact Or.inl rfl
    · exact Or.inl rfl
  | approvePost app_id =>
    simp only [handle, admin_login_required]
    split
    · exact Or.inl (approve_application_session app_id now st sess)
    · exact Or.inl rfl
  | indexGet page? => exact Or.inl rfl
  | detailGet item_id => exact Or.inl (detail_state item_id st sess).2
  | createGet =>
    simp only [handle, admin_login_required]
    split
    · exact Or.inl rfl
    · exact Or.inl rfl
  | createPost form =>
    simp only [handle, admin_login_required]
    split
    · exact Or.inl (create_post_apps form now st sess).2
    · exact Or.inl rfl
  | editGet item_id =>
    simp only [handle, admin_login_required]
    split
    · exact Or.inl (edit_get_state item_id st sess).2
    · exact Or.inl rfl
  | editPost item_id form =>
    simp only [handle, admin_login_required]
    split
    · exact Or.inl (edit_post_apps item_id form st sess).2
    · exact Or.inl rfl
  | deletePost item_id =>
    simp only [handle, admin_login_required]
    split
    · exact Or.inl (delete_apps item_id st sess).2
    · exact Or.inl rfl

theorem reach_oneRole (st : Store) (sess : Session) (h : Reach st sess) : oneRole sess := by
  induction h with
  | init => exact Or.inl rfl
  | step req now hr ih =>
    rcases handle_session_oneRole req now _ _ with h1 | h1
    · rw [h1]
      exact ih
    · exact h1

theorem reach_appInv (st : Store) (sess : Session) (h : Reach st sess) : AppInv st := by
  induction h with
  | init =>
    intro a ha
    simp [emptyStore] at ha
  | step req now hr ih =>
    intro a ha
    rcases handle_apps_cases req now _ _ with h1 | ⟨n, h1, hs, hn⟩ | ⟨app_id, h1⟩
    · rw [h1] at ha
      exact ih a ha
    · rw [h1] at ha
      rcases List.mem_append.mp ha with h2 | h2
      · exact ih a h2
      · rw [List.mem_singleton.mp h2]
        exact Or.inl ⟨hs, hn⟩
    · rw [h1] at ha
      rcases List.mem_map.mp ha with ⟨b, hb, rfl⟩
      unfold approveUpd
      split
      · exact Or.inr ⟨rfl, rfl⟩
      · exact ih b hb

theorem zip_self_eq {α : Type} (l : List α) : ∀ p ∈ l.zip l, p.1 = p.2 := by
  induction l with
  | nil =>
    intro p hp
    cases hp
  | cons a t ih =>
    intro p hp
    rcases List.mem_cons.mp hp with h | h
    · rw [h]
    · exact ih p h

theorem zip_append_self {α : Type} (l l2 : List α) : l.zip (l ++ l2) = l.zip l := by
  induction l with
  | nil => rfl
  | cons a t ih => simp [ih]

theorem zip_map_self {α : Type} (f : α → α) (l : List α) :
    ∀ p ∈ l.zip (l.map f), p.2 = f p.1 ∧ p.1 ∈ l := by
  induction l with
  | nil =>
    intro p hp
    cases hp
  | cons a t ih =>
    intro p hp
    rcases List.mem_cons.mp hp with h | h
    · rw [h]
      exact ⟨rfl, List.mem_cons_self a t⟩
    · rcases ih p h with ⟨h1, h2⟩
      exact ⟨h1, List.mem_cons_of_mem a h2⟩

/-- C2: in every state reachable by any sequence of requests, each application's status
is "Pending" or "Approved", with the approval timestamp non-null exactly when the status
is "Approved" (`AppInv`); and across any single request, matching applications by
position, a record's status either stays the same or moves from "Pending" to "Approved",
never the reverse. -/
theorem C2_status_invariant :
    (∀ st sess, Reach st sess → AppInv st) ∧
    (∀ (req : Request) (now : Nat) (st : Store) (sess : Session),
      AppInv st →
      ∀ p ∈ st.applications.zip (handle req now st sess).store.applications,
        p.2.status = p.1.status ∨
        (p.1.status = "Pending" ∧ p.2.status = "Approved")) := by
  refine ⟨reach_appInv, ?_⟩
  intro req now st sess hinv p hp
  rcases handle_apps_cases req now st sess with h1 | ⟨n, h1, hs, hn⟩ | ⟨app_id, h1⟩
  · rw [h1] at hp
    exact Or.inl (congrArg Application.status (zip_self_eq st.applications p hp)).symm
  · rw [h1, zip_append_self] at hp
    exact Or.inl (congrArg Application.status (zip_self_eq st.applications p hp)).symm
  · rw [h1] at hp
    rcases zip_map_self (approveUpd app_id now) st.applications p hp with ⟨h2, hmem⟩
    rw [h2]
    unfold approveUpd
    split
    · rcases hinv p.1 hmem with ⟨hpend, _⟩ | ⟨happr, _⟩
      · exact Or.inr ⟨hpend, rfl⟩
      · exact Or.inl happr.symm
    · exact Or.inl rfl

/-- C2 witness: the invariant holds in the initial state, and approving the concrete
pending application of `storeW` is a "Pending" to "Approved" status change. -/
theorem C2_status_invariant_witness :
    AppInv emptyStore ∧
    (({ appW with status := "Approved", approved_at := some 5 } : Application).status
        = appW.status ∨
      (appW.status = "Pending" ∧
       ({ appW with status := "Approved", approved_at := some 5 } : Application).status
         = "Approved")) :=
  ⟨C2_status_invariant.1 emptyStore emptySession Reach.init,
   C2_status_invariant.2 (.approvePost 1) 5 storeW sessAdmin
     (by
       intro a ha
       rw [List.mem_singleton.mp ha]
       exact Or.inl ⟨rfl, rfl⟩)
     (appW, { appW with status := "Approved", approved_at := some 5 }) (by decide)⟩

/-- C4 counterexample: a GET to `/admin/logout` with a completely empty (unauthenticated)
session is not rejected and not redirected to the admin login page: it is handled as a
logout, flashing "Logged out." and redirecting to the index; likewise for
`/student/logout`. -/
theorem C4_counterexample :
    (handle .adminLogout 0 emptyStore emptySession).resp = .redirect "index" ∧
    (handle .adminLogout 0 emptyStore emptySession).flashes = [ ("Logged out.", "info") ] ∧
    (handle .studentLogout 0 emptyStore emptySession).resp = .redirect "index" ∧
    (handle .studentLogout 0 emptyStore emptySession).flashes = [ ("Logged out.", "info") ] ∧
    Resp.redirect "index" ≠ Resp.redirect "admin_login" ∧
    Resp.redirect "index" ≠ Resp.redirect "student_login" := by
  refine ⟨rfl, rfl, rfl, rfl, ?_, ?_⟩ <;> decide

/-- C4 amended: the logout routes carry no authentication guard. For every store and
session — marker present or not — a GET to `/admin/logout` removes the admin marker,
flashes "Logged out." and redirects to the index, and symmetrically for
`/student/logout`; an unauthenticated request is handled as a logout, never rejected. -/
theorem C4_logout_unguarded (st : Store) (sess : Session) (now : Nat) :
    handle .adminLogout now st sess =
      { resp := .redirect "index", flashes := [ ("Logged out.", "info") ],
        session := { sess with admin_id := none }, store := st } ∧
    handle .studentLogout now st sess =
      { resp := .redirect "index", flashes := [ ("Logged out.", "info") ],
        session := { sess with student_id := none }, store := st } :=
  ⟨rfl, rfl⟩

/-- C9: a request to a guarded route without the required role's session marker is
short-circuited by the guard: the response is a redirect to that role's login page with
a flash message, the wrapped handler never runs (the result is a constant independent of
it), and neither the store nor the session changes. Stated both for the two guard
combinators applied to an arbitrary handler and for every guarded route of the dispatch. -/
theorem C9_guard_short_circuits :
    (∀ (f : Handler) (st : Store) (sess : Session), sess.admin_id = none →
      admin_login_required f st sess =
        { resp := .redirect "admin_login",
          flashes := [ ("Please log in as admin.", "error") ],
          session := sess, store := st }) ∧
    (∀ (f : Handler) (st : Store) (sess : Session), sess.student_id = none →
      student_login_required f st sess =
        { resp := .redirect "student_login",
          flashes := [ ("Please log in as a student.", "error") ],
          session := sess, store := st }) ∧
    (∀ req, guardedAdmin req → ∀ (now : Nat) (st : Store) (sess : Session),
      sess.admin_id = none →
      handle req now st sess =
        { resp := .redirect "admin_login",
          flashes := [ ("Please log in as admin.", "error") ],
          session := sess, store := st }) ∧
    (∀ req, guardedStudent req → ∀ (now : Nat) (st : Store) (sess : Session),
      sess.student_id = none →
      handle req now st sess =
        { resp := .redirect "student_login",
          flashes := [ ("Please log in as a student.", "error") ],
          session := sess, store := st }) := by
  have hA : ∀ (f : Handler) (st : Store) (sess : Session), sess.admin_id = none →
      admin_login_required f st sess =
        { resp := .redirect "admin_login",
          flashes := [ ("Please log in as admin.", "error") ],
          session := sess, store := st } := by
    intro f st sess h
    unfold admin_login_required
    rw [h]
    rfl
  have hS : ∀ (f : Handler) (st : Store) (sess : Session), sess.student_id = none →
      student_login_required f st sess =
        { resp := .redirect "student_login",
          flashes := [ ("Please log in as a student.", "error") ],
          session := sess, store := st } := by
    intro f st sess h
    unfold student_login_required
    rw [h]
    rfl
  refine ⟨hA, hS, ?_, ?_⟩
  · intro req hreq now st sess h
    cases req <;> first
      | exact hreq.elim
      | (simp only [handle]; exact hA _ st sess h)
  · intro req hreq now st sess h
    cases req <;> first
      | exact hreq.elim
      | (simp only [handle]; exact hS _ st sess h)

/-- C9 witness: the admin guard short-circuits the applications listing, and the student
guard short-circuits the dashboard, on a concrete empty session. -/
theorem C9_guard_short_circuits_witness :
    handle .applicationsGet 0 storeW emptySession =
      { resp := .redirect "admin_login",
        flashes := [ ("Please log in as admin.", "error") ],
        session := emptySession, store := storeW } ∧
    handle .dashboardGet 0 storeW emptySession =
      { resp := .redirect "student_login",
        flashes := [ ("Please log in as a student.", "error") ],
        session := emptySession, store := storeW } :=
  ⟨C9_guard_short_circuits.2.2.1 .applicationsGet trivial 0 storeW emptySession rfl,
   C9_guard_short_circuits.2.2.2 .dashboardGet trivial 0 storeW emptySession rfl⟩

/-- C10: a successful admin login (a redirect to the index) leaves the session holding
exactly the admin marker — the whole session was cleared first, so the student marker is
gone — and symmetrically for a successful student login; consequently every session
reachable from a fresh one carries at most one role marker. -/
theorem C10_login_clears_session :
    (∀ (form : Form) (now : Nat) (st : Store) (sess : Session),
      (handle (.adminLoginPost form) now st sess).resp = .redirect "index" →
      ∃ aid, (handle (.adminLoginPost form) now st sess).session =
        { admin_id := some aid, student_id := none }) ∧
    (∀ (form : Form) (now : Nat) (st : Store) (sess : Session),
      (handle (.studentLoginPost form) now st sess).resp = .redirect "student_dashboard" →
      ∃ sid, (handle (.studentLoginPost form) now st sess).session =
        { admin_id := none, student_id := some sid }) ∧
    (∀ st sess, Reach st sess → oneRole sess) := by
  refine ⟨?_, ?_, reach_oneRole⟩
  · intro form now st sess
    simp only [handle]
    unfold admin_login_post serverError
    dsimp only
    repeat' split
    all_goals intro h
    all_goals first
      | exact ⟨_, rfl⟩
      | exact Resp.noConfusion h
  · intro form now st sess
    simp only [handle]
    unfold student_login_post serverError
    dsimp only
    repeat' split
    all_goals intro h
    all_goals first
      | exact ⟨_, rfl⟩
      | exact Resp.noConfusion h

/-- C10 witness: logging in as the concrete student from a session that still holds the
admin marker leaves only the student marker; the initial session is reachable. -/
theorem C10_login_clears_session_witness :
    (∃ sid, (handle (.studentLoginPost [ ("username", "bob"), ("password", "pw2") ])
        0 storeW sessAdmin).session = { admin_id := none, student_id := some sid }) ∧
    oneRole emptySession :=
  ⟨C10_login_clears_session.2.1 [ ("username", "bob"), ("password", "pw2") ]
      0 storeW sessAdmin (by decide),
   C10_login_clears_session.2.2 emptyStore emptySession Reach.init⟩

theorem admin_guard_pass (f : Handler) (st : Store) (sess : Session)
    (h : truthyMarker sess.admin_id = true) :
    admin_login_required f st sess = f st sess := by
  unfold admin_login_required
  rw [h]
  rfl

theorem student_guard_pass (f : Handler) (st : Store) (sess : Session)
    (h : truthyMarker sess.student_id = true) :
    student_login_required f st sess = f st sess := by
  unfold student_login_required
  rw [h]
  rfl

theorem approveUpd_hit (app_id now : Nat) (a : Application) (h : a.id = app_id) :
    approveUpd app_id now a = { a with status := "Approved", approved_at := some now } := by
  unfold approveUpd
  rw [if_pos (beq_iff_eq.mpr h)]

theorem approveUpd_id (app_id now : Nat) (a : Application) :
    (approveUpd app_id now a).id = a.id := by
  unfold approveUpd
  split <;> rfl

/-- C1: with an admin logged in, approving application `app_id`: when no application
carries that id, the response is the 404 page and the store is unchanged; when one
exists, every application carrying that id gets status "Approved" and approval timestamp
`now` — in particular a repeated approval of an already-approved application re-stamps
the timestamp with the new time — no other table changes, and the response redirects to
the applications list. -/
theorem C1_approve_application (st : Store) (sess : Session) (app_id : Nat) (now : Nat)
    (hauth : truthyMarker sess.admin_id = true) :
    ((∀ a ∈ st.applications, a.id ≠ app_id) →
      (handle (.approvePost app_id) now st sess).resp = .notFound ∧
      (handle (.approvePost app_id) now st sess).store = st) ∧
    ((∃ a ∈ st.applications, a.id = app_id) →
      (handle (.approvePost app_id) now st sess).resp = .redirect "admin_view_applications" ∧
      (handle (.approvePost app_id) now st sess).store.applications
        = st.applications.map (approveUpd app_id now) ∧
      (∀ b ∈ (handle (.approvePost app_id) now st sess).store.applications,
        b.id = app_id → b.status = "Approved" ∧ b.approved_at = some now) ∧
      (handle (.approvePost app_id) now st sess).store.admins = st.admins ∧
      (handle (.approvePost app_id) now st sess).store.students = st.students ∧
      (handle (.approvePost app_id) now st sess).store.items = st.items ∧
      (handle (.approvePost app_id) now st sess).store.files = st.files) := by
  have hg : handle (.approvePost app_id) now st sess = approve_application app_id now st sess := by
    simp only [handle]
    exact admin_guard_pass _ st sess hauth
  rw [hg]
  unfold approve_application
  constructor
  · intro hnone
    have hfind : st.applications.find? (fun a => a.id == app_id) = none := by
      rw [List.find?_eq_none]
      intro a ha
      simpa using hnone a ha
    rw [hfind]
    exact ⟨rfl, rfl⟩
  · intro hexists
    rcases hexists with ⟨a, ha, hid⟩
    have hfind : (st.applications.find? (fun b => b.id == app_id)).isSome := by
      rw [List.find?_isSome]
      exact ⟨a, ha, beq_iff_eq.mpr hid⟩
    rcases Option.isSome_iff_exists.mp hfind with ⟨b, hb⟩
    rw [hb]
    refine ⟨rfl, rfl, ?_, rfl, rfl, rfl, rfl⟩
    intro c hc hcid
    have hc2 : c ∈ st.applications.map (approveUpd app_id now) := hc
    rcases List.mem_map.mp hc2 with ⟨d, hd, hde⟩
    have hdid : d.id = app_id := by
      rw [← hcid, ← hde, approveUpd_id]
    rw [← hde, approveUpd_hit app_id now d hdid]
    exact ⟨rfl, rfl⟩

/-- C1 witness: approving the concrete application 1 of `storeW` as the logged-in admin. -/
theorem C1_approve_application_witness :
    (handle (.approvePost 1) 5 storeW sessAdmin).resp = .redirect "admin_view_applications" ∧
    (handle (.approvePost 1) 5 storeW sessAdmin).store.applications
      = storeW.applications.map (approveUpd 1 5) ∧
    (∀ b ∈ (handle (.approvePost 1) 5 storeW sessAdmin).store.applications,
      b.id = 1 → b.status = "Approved" ∧ b.approved_at = some 5) ∧
    (handle (.approvePost 1) 5 storeW sessAdmin).store.admins = storeW.admins ∧
    (handle (.approvePost 1) 5 storeW sessAdmin).store.students = storeW.students ∧
    (handle (.approvePost 1) 5 storeW sessAdmin).store.items = storeW.items ∧
    (handle (.approvePost 1) 5 storeW sessAdmin).store.files = storeW.files :=
  (C1_approve_application storeW sessAdmin 1 5 rfl).2 ⟨appW, by decide, rfl⟩

/-- C7: a registration attempt whose form supplies the required fields and whose
stripped username already exists — or, for students, whose stripped username or stripped
email already exists — is rejected: the store is completely unchanged (no record
created) and the originating form is re-rendered with an error flash. -/
theorem C7_duplicate_registration (st : Store) (sess : Session) (now : Nat) (form : Form) :
    (∀ u p, getStrip form "username" = some u → getStrip form "password" = some p →
      (∃ a ∈ st.admins, a.username = u) →
      (handle (.adminRegisterPost form) now st sess).store = st ∧
      (handle (.adminRegisterPost form) now st sess).resp = .render .adminRegister ∧
      (handle (.adminRegisterPost form) now st sess).flashes ≠ []) ∧
    (∀ u e p, getStrip form "username" = some u → getStrip form "email" = some e →
      getStrip form "password" = some p →
      ((∃ s ∈ st.students, s.username = u) ∨ (∃ s ∈ st.students, s.email = e)) →
      (handle (.studentRegisterPost form) now st sess).store = st ∧
      (handle (.studentRegisterPost form) now st sess).resp = .render .studentRegister ∧
      (handle (.studentRegisterPost form) now st sess).flashes ≠ []) := by
  constructor
  · intro u p hu hp hdup
    simp only [handle]
    unfold admin_register_post
    rw [hu, hp]
    dsimp only
    by_cases hblank : u = "" ∨ p = ""
    · rw [if_pos hblank]
      exact ⟨rfl, rfl, List.cons_ne_nil _ _⟩
    · rw [if_neg hblank]
      have hfind : (st.admins.find? (fun x => x.username == u)).isSome = true := by
        rw [List.find?_isSome]
        rcases hdup with ⟨a, ha, hname⟩
        exact ⟨a, ha, beq_iff_eq.mpr hname⟩
      rw [if_pos hfind]
      exact ⟨rfl, rfl, List.cons_ne_nil _ _⟩
  · intro u e p hu he hp hdup
    simp only [handle]
    unfold student_register_post
    rw [hu, he, hp]
    dsimp only
    by_cases hblank : u = "" ∨ e = "" ∨ p = ""
    · rw [if_pos hblank]
      exact ⟨rfl, rfl, List.cons_ne_nil _ _⟩
    · rw [if_neg hblank]
      have hfind : ((st.students.find? (fun s => s.username == u)).isSome
          || (st.students.find? (fun s => s.email == e)).isSome) = true := by
        rw [Bool.or_eq_true]
        rcases hdup with ⟨s, hs, hname⟩ | ⟨s, hs, hmail⟩
        · exact Or.inl (by rw [List.find?_isSome]; exact ⟨s, hs, beq_iff_eq.mpr hname⟩)
        · exact Or.inr (by rw [List.find?_isSome]; exact ⟨s, hs, beq_iff_eq.mpr hmail⟩)
      rw [if_pos hfind]
      exact ⟨rfl, rfl, List.cons_ne_nil _ _⟩

/-- C7 witness: re-registering the existing username "alice" (admin) and the existing
email "bob@x.com" (student) against `storeW` changes nothing and re-renders the forms. -/
theorem C7_duplicate_registration_witness :
    ((handle (.adminRegisterPost [ ("username", "alice"), ("password", "zzz") ])
        0 storeW emptySession).store = storeW ∧
     (handle (.adminRegisterPost [ ("username", "alice"), ("password", "zzz") ])
        0 storeW emptySession).resp = .render .adminRegister ∧
     (handle (.adminRegisterPost [ ("username", "alice"), ("password", "zzz") ])
        0 storeW emptySession).flashes ≠ []) ∧
    ((handle (.studentRegisterPost
        [ ("username", "carol"), ("email", "bob@x.com"), ("password", "zzz") ])
        0 storeW emptySession).store = storeW ∧
     (handle (.studentRegisterPost
        [ ("username", "carol"), ("email", "bob@x.com"), ("password", "zzz") ])
        0 storeW emptySession).resp = .render .studentRegister ∧
     (handle (.studentRegisterPost
        [ ("username", "carol"), ("email", "bob@x.com"), ("password", "zzz") ])
        0 storeW emptySession).flashes ≠ []) :=
  ⟨(C7_duplicate_registration storeW emptySession 0
      [ ("username", "alice"), ("password", "zzz") ]).1 "alice" "zzz" rfl rfl
      ⟨adminW, by decide, rfl⟩,
   (C7_duplicate_registration storeW emptySession 0
      [ ("username", "carol"), ("email", "bob@x.com"), ("password", "zzz") ]).2
      "carol" "bob@x.com" "zzz" rfl rfl rfl (Or.inr ⟨studentW, by decide, rfl⟩)⟩

/-- C3 counterexample: a POST to `/admin/register` whose form omits the username field
entirely is not answered with a validation flash on a re-rendered form: `None.strip()`
raises `AttributeError`, so the outcome is the 500 response with no flash at all. -/
theorem C3_counterexample :
    (handle (.adminRegisterPost []) 0 emptyStore emptySession).resp = .serverError ∧
    (handle (.adminRegisterPost []) 0 emptyStore emptySession).flashes = [] ∧
    Resp.serverError ≠ Resp.render .adminRegister :=
  ⟨rfl, rfl, by decide⟩

/-- C3 amended: for POSTs to the registration and login routes whose form supplies every
required field (possibly blank), the outcome is a success redirect or a user-visible
validation error (a re-render of the originating form with a non-empty flash), never a
500; but a POST omitting the username field raises an unhandled `AttributeError`,
yielding a 500 response with store and session unchanged rather than a validation
error. -/
theorem C3_validation (st : Store) (sess : Session) (now : Nat) (form : Form) :
    ((formGet form "username").isSome → (formGet form "password").isSome →
      ((∃ e, (handle (.adminRegisterPost form) now st sess).resp = .redirect e) ∨
       ((handle (.adminRegisterPost form) now st sess).resp = .render .adminRegister ∧
        (handle (.adminRegisterPost form) now st sess).flashes ≠ []))) ∧
    ((formGet form "username").isSome → (formGet form "password").isSome →
      ((∃ e, (handle (.adminLoginPost form) now st sess).resp = .redirect e) ∨
       ((handle (.adminLoginPost form) now st sess).resp = .render .adminLogin ∧
        (handle (.adminLoginPost form) now st sess).flashes ≠ []))) ∧
    ((formGet form "username").isSome → (formGet form "email").isSome →
      (formGet form "password").isSome →
      ((∃ e, (handle (.studentRegisterPost form) now st sess).resp = .redirect e) ∨
       ((handle (.studentRegisterPost form) now st sess).resp = .render .studentRegister ∧
        (handle (.studentRegisterPost form) now st sess).flashes ≠ []))) ∧
    ((formGet form "username").isSome → (formGet form "password").isSome →
      ((∃ e, (handle (.studentLoginPost form) now st sess).resp = .redirect e) ∨
       ((handle (.studentLoginPost form) now st sess).resp = .render .studentLogin ∧
        (handle (.studentLoginPost form) now st sess).flashes ≠ []))) ∧
    (formGet form "username" = none →
      handle (.adminRegisterPost form) now st sess = serverError st sess ∧
      handle (.adminLoginPost form) now st sess = serverError st sess ∧
      handle (.studentRegisterPost form) now st sess = serverError st sess ∧
      handle (.studentLoginPost form) now st sess = serverError st sess) := by
  refine ⟨?_, ?_, ?_, ?_, ?_⟩
  · intro h1 h2
    rcases Option.isSome_iff_exists.mp h1 with ⟨u, hu⟩
    rcases Option.isSome_iff_exists.mp h2 with ⟨p, hp⟩
    simp only [handle]
    unfold admin_register_post getStrip
    rw [hu, hp]
    dsimp only [Option.map]
    repeat' split
    all_goals first
      | exact Or.inl ⟨_, rfl⟩
      | exact Or.inr ⟨rfl, List.cons_ne_nil _ _⟩
  · intro h1 h2
    rcases Option.isSome_iff_exists.mp h1 with ⟨u, hu⟩
    rcases Option.isSome_iff_exists.mp h2 with ⟨p, hp⟩
    simp only [handle]
    unfold admin_login_post getStrip
    rw [hu, hp]
    dsimp only [Option.map]
    repeat' split
    all_goals first
      | exact Or.inl ⟨_, rfl⟩
      | exact Or.inr ⟨rfl, List.cons_ne_nil _ _⟩
  · intro h1 h2 h3
    rcases Option.isSome_iff_exists.mp h1 with ⟨u, hu⟩
    rcases Option.isSome_iff_exists.mp h2 with ⟨e, he⟩
    rcases Option.isSome_iff_exists.mp h3 with ⟨p, hp⟩
    simp only [handle]
    unfold student_register_post getStrip
    rw [hu, he, hp]
    dsimp only [Option.map]
    repeat' split
    all_goals first
      | exact Or.inl ⟨_, rfl⟩
      | exact Or.inr ⟨rfl, List.cons_ne_nil _ _⟩
  · intro h1 h2
    rcases Option.isSome_iff_exists.mp h1 with ⟨u, hu⟩
    rcases Option.isSome_iff_exists.mp h2 with ⟨p, hp⟩
    simp only [handle]
    unfold student_login_post getStrip
    rw [hu, hp]
    dsimp only [Option.map]
    repeat' split
    all_goals first
      | exact Or.inl ⟨_, rfl⟩
      | exact Or.inr ⟨rfl, List.cons_ne_nil _ _⟩
  · intro h
    refine ⟨?_, ?_, ?_, ?_⟩
    all_goals simp only [handle]
    · unfold admin_register_post getStrip
      rw [h]
      rfl
    · unfold admin_login_post getStrip
      rw [h]
      rfl
    · unfold student_register_post getStrip
      rw [h]
      rfl
    · unfold student_login_post getStrip
      rw [h]
      rfl

/-- C3 witness: a blank username with the field present yields a validation re-render
with a flash; omitting the username field entirely yields the unhandled-exception 500
with nothing changed. -/
theorem C3_validation_witness :
    ((∃ e, (handle (.adminRegisterPost [ ("username", ""), ("password", "x") ])
        0 emptyStore emptySession).resp = .redirect e) ∨
     ((handle (.adminRegisterPost [ ("username", ""), ("password", "x") ])
        0 emptyStore emptySession).resp = .render .adminRegister ∧
      (handle (.adminRegisterPost [ ("username", ""), ("password", "x") ])
        0 emptyStore emptySession).flashes ≠ [])) ∧
    handle (.adminRegisterPost [ ("password", "x") ]) 0 emptyStore emptySession
      = serverError emptyStore emptySession :=
  ⟨(C3_validation emptyStore emptySession 0
      [ ("username", ""), ("password", "x") ]).1 (by decide) (by decide),
   ((C3_validation emptyStore emptySession 0 [ ("password", "x") ]).2.2.2.2 (by decide)).1⟩

/-- C8 counterexample: submitting (as the logged-in admin) the whitespace-only title " "
with description " x " re-renders the creation form with the stripped values — displayed
title "" and description "x" — which are not the submitted input " " and " x ". -/
theorem C8_counterexample :
    (handle (.createPost [ ("title", " "), ("description", " x ") ]) 0 emptyStore sessAdmin).resp
      = .render (.createPage "" (some "x")) ∧
    (handle (.createPost [ ("title", " "), ("description", " x ") ]) 0 emptyStore sessAdmin).store
      = emptyStore ∧
    ("" : String) ≠ " " ∧ (some "x" : Option String) ≠ some " x " :=
  ⟨rfl, rfl, by decide, by decide⟩

/-- C8 amended: with an admin logged in, an item-creation POST whose title strips to
empty persists nothing — the store is unchanged — and re-renders the creation form with
an error flash carrying the stripped title (hence empty) and the stripped description,
not the raw submitted input; `edit` applies the same validation whenever the edited item
exists. -/
theorem C8_blank_title (st : Store) (sess : Session) (now : Nat) (form : Form)
    (hauth : truthyMarker sess.admin_id = true) (hblank : strippedTitle form = "") :
    (handle (.createPost form) now st sess).store = st ∧
    (handle (.createPost form) now st sess).resp
      = .render (.createPage (strippedTitle form) (strippedDescription form)) ∧
    (handle (.createPost form) now st sess).flashes = [ ("Title is required.", "error") ] ∧
    (∀ item_id item, st.items.find? (fun i => i.id == item_id) = some item →
      (handle (.editPost item_id form) now st sess).store = st ∧
      (handle (.editPost item_id form) now st sess).resp
        = .render (.editPage item (strippedTitle form) (strippedDescription form)) ∧
      (handle (.editPost item_id form) now st sess).flashes
        = [ ("Title is required.", "error") ]) := by
  have hc : handle (.createPost form) now st sess = create_post form now st sess := by
    simp only [handle]
    exact admin_guard_pass _ st sess hauth
  rw [hc]
  unfold create_post
  dsimp only
  rw [if_pos hblank]
  refine ⟨rfl, rfl, rfl, ?_⟩
  intro item_id item hfind
  have he : handle (.editPost item_id form) now st sess = edit_post item_id form st sess := by
    simp only [handle]
    exact admin_guard_pass _ st sess hauth
  rw [he]
  unfold edit_post
  rw [hfind]
  dsimp only
  rw [if_pos hblank]
  exact ⟨rfl, rfl, rfl⟩

/-- C8 witness: the blank-title rejection on a concrete create and edit against `storeW`. -/
theorem C8_blank_title_witness :
    (handle (.createPost [ ("title", "  "), ("description", "d") ]) 0 storeW sessAdmin).store
      = storeW ∧
    (handle (.editPost 1 [ ("title", "  "), ("description", "d") ]) 0 storeW sessAdmin).resp
      = .render (.editPage itemW
          (strippedTitle [ ("title", "  "), ("description", "d") ])
          (strippedDescription [ ("title", "  "), ("description", "d") ])) :=
  ⟨(C8_blank_title storeW sessAdmin 0 [ ("title", "  "), ("description", "d") ]
      rfl (by decide)).1,
   ((C8_blank_title storeW sessAdmin 0 [ ("title", "  "), ("description", "d") ]
      rfl (by decide)).2.2.2 1 itemW rfl).2.1⟩

theorem secure_filename_no_slash (s : String) :
    ∀ c ∈ (secure_filename s).toList, c ≠ '/' := by
  intro c hc heq
  have h2 : c ∈ ((joinUnderscore (pySplitWs s.toList [])).filter
      (fun c => c.isAlphanum || c == '_' || c == '.' || c == '-')).dropWhile
        (fun c => c == '.' || c == '_') := by
    have h3 := List.mem_reverse.mp hc
    have h4 := (List.dropWhile_sublist _).subset h3
    exact List.mem_reverse.mp h4
  have h5 := (List.dropWhile_sublist _).subset h2
  have hpred := (List.mem_filter.mp h5).2
  subst heq
  exact absurd hpred (by decide)

/-- C5: with a student logged in, a resume-upload POST whose (non-empty) filename has a
disallowed extension changes nothing — no Application created, no file written, the
store is fully unchanged — and falls through to a re-render of the upload form with no
flash; an upload with an allowed extension appends exactly one file under the fixed
upload directory with the sanitized name and one Application created with default status
"Pending", null approval timestamp and the current student's id; sanitization never
leaves a path separator in the stored filename. -/
theorem C5_upload (st : Store) (sess : Session) (now : Nat) (fname : String) (sid : Nat)
    (hsid : sess.student_id = some sid) (hnz : sid ≠ 0) :
    (fname ≠ "" → allowed_file fname = false →
      (handle (.uploadPost (some ⟨fname⟩)) now st sess).store = st ∧
      (handle (.uploadPost (some ⟨fname⟩)) now st sess).flashes = [] ∧
      (handle (.uploadPost (some ⟨fname⟩)) now st sess).resp
        = .render (.uploadResume (st.students.find? (fun s => s.id == sid)))) ∧
    (∀ student, st.students.find? (fun s => s.id == sid) = some student →
      fname ≠ "" → allowed_file fname = true →
      (handle (.uploadPost (some ⟨fname⟩)) now st sess).store.applications
        = st.applications ++
          [ new_application (freshId (st.applications.map Application.id))
              student.id (secure_filename fname) now ] ∧
      (handle (.uploadPost (some ⟨fname⟩)) now st sess).store.files
        = st.files ++ [ UPLOAD_FOLDER ++ "/" ++ secure_filename fname ] ∧
      (new_application (freshId (st.applications.map Application.id))
          student.id (secure_filename fname) now).status = "Pending" ∧
      (new_application (freshId (st.applications.map Application.id))
          student.id (secure_filename fname) now).approved_at = none ∧
      (new_application (freshId (st.applications.map Application.id))
          student.id (secure_filename fname) now).student_id = student.id ∧
      (handle (.uploadPost (some ⟨fname⟩)) now st sess).store.admins = st.admins ∧
      (handle (.uploadPost (some ⟨fname⟩)) now st sess).store.students = st.students ∧
      (handle (.uploadPost (some ⟨fname⟩)) now st sess).store.items = st.items ∧
      (handle (.uploadPost (some ⟨fname⟩)) now st sess).resp
        = .redirect "student_dashboard") ∧
    (∀ c ∈ (secure_filename fname).toList, c ≠ '/') := by
  have hpass : truthyMarker sess.student_id = true := by
    rw [hsid]
    simp [truthyMarker, hnz]
  have hg : handle (.uploadPost (some ⟨fname⟩)) now st sess
      = upload_resume_post (some ⟨fname⟩) now st sess := by
    simp only [handle]
    exact student_guard_pass _ st sess hpass
  rw [hg]
  unfold upload_resume_post
  rw [hsid]
  dsimp only
  refine ⟨?_, ?_, secure_filename_no_slash fname⟩
  · intro hne hnot
    rw [if_neg hne, hnot, if_neg (by decide : ¬ (false = true))]
    exact ⟨rfl, rfl, rfl⟩
  · intro student hfind hne hyes
    rw [if_neg hne, hyes, if_pos rfl, hfind]
    dsimp only
    exact ⟨rfl, rfl, rfl, rfl, rfl, rfl, rfl, rfl, rfl⟩

/-- C5 witness: the concrete student uploading "virus.exe" changes nothing and
re-renders; uploading "resume 2.pdf" stores the sanitized file and appends a pending
application. -/
theorem C5_upload_witness :
    ((handle (.uploadPost (some ⟨"virus.exe"⟩)) 7 storeW sessStudent).store = storeW ∧
     (handle (.uploadPost (some ⟨"virus.exe"⟩)) 7 storeW sessStudent).flashes = [] ∧
     (handle (.uploadPost (some ⟨"virus.exe"⟩)) 7 storeW sessStudent).resp
       = .render (.uploadResume (storeW.students.find? (fun s => s.id == 1)))) ∧
    (handle (.uploadPost (some ⟨"resume 2.pdf"⟩)) 7 storeW sessStudent).store.applications
      = storeW.applications ++
        [ new_application (freshId (storeW.applications.map Application.id))
            studentW.id (secure_filename "resume 2.pdf") 7 ] :=
  ⟨(C5_upload storeW sessStudent 7 "virus.exe" 1 rfl (by decide)).1
      (by decide) (by decide),
   ((C5_upload storeW sessStudent 7 "resume 2.pdf" 1 rfl (by decide)).2.1
      studentW rfl (by decide) (by decide)).1⟩

/-- C6 counterexample: with one item in the store, a listing request with the invalid
page parameter 0 does not yield an empty page: the pagination clamps the page to 1 and
returns the full (non-empty) first page. -/
theorem C6_counterexample :
    (handle (.indexGet (some 0)) 0 storeW emptySession).resp
      = .render (.itemList [ itemW ]) ∧
    ([ itemW ] : List Item) ≠ [] :=
  ⟨rfl, by decide⟩

/-- C6 amended: every listing response shows a window of the items sorted by creation
time descending; the window holds at most 6 items, exactly 6 whenever the requested
(valid) page is fully covered by the store, and is empty when the requested page lies
beyond the last available one; an absent or non-integer page parameter, and any page
below 1, are treated as page 1 — a valid, possibly non-empty page — never an error. -/
theorem C6_listing (st : Store) (sess : Session) (now : Nat) (page? : Option Int) :
    ∃ shown,
      (handle (.indexGet page?) now st sess).resp = .render (.itemList shown) ∧
      List.Pairwise itemDescRel shown ∧
      shown.length ≤ 6 ∧
      (∀ page : Int, page? = some page → 1 ≤ page →
        page.toNat * 6 ≤ st.items.length → shown.length = 6) ∧
      (∀ page : Int, page? = some page →
        st.items.length ≤ (page.toNat - 1) * 6 → shown = []) ∧
      (page? = none → shown = paginate_items (order_items_desc st.items) 1 6) ∧
      (∀ page : Int, page? = some page → page < 1 →
        shown = paginate_items (order_items_desc st.items) 1 6) := by
  have hlen : (order_items_desc st.items).length = st.items.length :=
    (List.perm_insertionSort itemDescRel st.items).length_eq
  have hsorted : List.Pairwise itemDescRel (order_items_desc st.items) :=
    List.sorted_insertionSort itemDescRel st.items
  refine ⟨paginate_items (order_items_desc st.items) (page?.getD 1) 6,
    rfl, ?_, ?_, ?_, ?_, ?_, ?_⟩
  · unfold paginate_items
    dsimp only
    exact List.Pairwise.sublist ((List.take_sublist _ _).trans (List.drop_sublist _ _)) hsorted
  · unfold paginate_items
    dsimp only
    exact List.length_take_le _ _
  · intro page hp h1 h2
    rw [hp]
    unfold paginate_items
    dsimp only [Option.getD]
    rw [if_neg (not_lt.mpr h1), List.length_take, List.length_drop, hlen]
    omega
  · intro page hp h2
    rw [hp]
    unfold paginate_items
    dsimp only [Option.getD]
    split
    · rename_i hlt
      rw [List.drop_eq_nil_of_le (by rw [hlen]; omega), List.take_nil]
    · rw [List.drop_eq_nil_of_le (by rw [hlen]; omega), List.take_nil]
  · intro h
    rw [h]
    rfl
  · intro page hp hlt
    rw [hp]
    unfold paginate_items
    dsimp only [Option.getD]
    rw [if_pos hlt]
    rfl

/-- C6 witness: with the single-item `storeW`, requesting page 2 — beyond the last
available page — renders the empty (but valid) listing page. -/
theorem C6_listing_witness :
    (handle (.indexGet (some 2)) 0 storeW emptySession).resp = .render (.itemList []) := by
  obtain ⟨shown, h1, _, _, _, h5, _, _⟩ := C6_listing storeW emptySession 0 (some 2)
  rw [h5 2 rfl (by decide)] at h1
  exact h1

end CampusPortal
